import Mathlib

/-!
Shallow embedding of the conversational chat backend (src/backend/app.py)
and proofs about the frozen claims on its behaviour.

Python strings are modelled as Lean `String` (ASCII model of `\w`, `\s`,
`lower()`); the two regular-expression searches of `Conversation.remember`
are modelled as explicit leftmost-search functions with the backtracking
order of Python's `re` engine; exceptions are modelled with `Except`;
the external network, sentiment classifier, completion provider and the
random draws are oracle parameters.
-/

namespace Chatbot

/-- ASCII model of Python's regex `\w` character class. -/
def isWordChar (c : Char) : Bool :=
  c.isAlphanum || c == '_'

/-- ASCII model of Python's regex `\s` / `str.strip` whitespace class. -/
def pyIsSpace (c : Char) : Bool :=
  c == ' ' || c == '\t' || c == '\n' || c == '\r' || c == '\x0b' || c == '\x0c'

/-- Model of Python `str.lower()` (ASCII letters). -/
def pyLower (s : String) : String :=
  String.mk (s.data.map Char.toLower)

/-- Model of Python `str.strip()`. -/
def pyStrip (s : String) : String :=
  String.mk (((s.data.dropWhile pyIsSpace).reverse.dropWhile pyIsSpace).reverse)

/-- Model of Python `str.capitalize()`: first character upper-cased, rest lower-cased. -/
def pyCapitalize (s : String) : String :=
  match s.data with
  | [] => ""
  | c :: rest => String.mk (c.toUpper :: rest.map Char.toLower)

/-- Model of Python slicing `s[n:]`. -/
def pyDropStr (n : Nat) (s : String) : String :=
  String.mk (s.data.drop n)

/-- `isPre p l` iff `p` is a prefix of the character list `l`. -/
def isPre : List Char → List Char → Bool
  | [], _ => true
  | _ :: _, [] => false
  | a :: as, b :: bs => a == b && isPre as bs

/-- `containsSub nd l` iff the character list `nd` occurs contiguously in `l`
(model of Python's `in` on strings). -/
def containsSub (nd : List Char) : List Char → Bool
  | [] => isPre nd []
  | c :: rest => isPre nd (c :: rest) || containsSub nd rest

/-- Model of Python `needle in haystack` on strings. -/
def pyIn (needle hay : String) : Bool :=
  containsSub needle.data hay.data

/-- Model of Python `s.startswith(p)`. -/
def pyStartsWith (p s : String) : Bool :=
  isPre p.data s.data

/-- Case-insensitive literal match: if `pat` matches a prefix of `s` up to
ASCII case, return the remainder of `s`. -/
def caselessDrop : List Char → List Char → Option (List Char)
  | [], s => some s
  | _ :: _, [] => none
  | p :: ps, c :: cs => if p.toLower == c.toLower then caselessDrop ps cs else none

/-- A regex word boundary `\b` holds before a word character when the previous
character (if any) is not a word character. -/
def boundaryOk : Option Char → Bool
  | none => true
  | some c => !isWordChar c

/-- The tail `\s*(\w+)` of the mood pattern: greedily skip whitespace, then
capture a non-empty maximal run of word characters. -/
def moodTail (r : List Char) : Option (List Char) :=
  let w := (r.dropWhile pyIsSpace).takeWhile isWordChar
  if w.isEmpty then none else some w

/-- The part `(?:feeling|a bit)?\s*(\w+)` of the mood pattern, with the
backtracking order of Python's engine: alternative `feeling` first, then
`a bit`, then the empty optional. -/
def moodAfterSpace (rest : List Char) : Option (List Char) :=
  match caselessDrop "feeling".data rest with
  | some r =>
      match moodTail r with
      | some w => some w
      | none => moodFallback rest
  | none => moodFallback rest
where
  /-- Alternatives tried after `feeling` fails (or fails downstream). -/
  moodFallback (rest : List Char) : Option (List Char) :=
    match caselessDrop "a bit".data rest with
    | some r =>
        match moodTail r with
        | some w => some w
        | none => moodTail rest
    | none => moodTail rest

/-- Match of `\bI(?:'m| am) (?:feeling|a bit)?\s*(\w+)` (IGNORECASE) anchored
at the head of `s`, where `prev` is the character before `s`. Returns the
captured group. -/
def moodMatchAt (prev : Option Char) (s : List Char) : Option (List Char) :=
  if boundaryOk prev then
    match s with
    | [] => none
    | c :: rest =>
        if c.toLower == 'i' then
          match (caselessDrop "'m ".data rest).bind moodAfterSpace with
          | some w => some w
          | none => (caselessDrop " am ".data rest).bind moodAfterSpace
        else none
  else none

/-- Leftmost search for the mood pattern (model of `re.search`). -/
def searchMood : Option Char → List Char → Option (List Char)
  | _, [] => none
  | prev, c :: rest =>
      match moodMatchAt prev (c :: rest) with
      | some w => some w
      | none => searchMood (some c) rest

/-- Match of `\bmy name is (\w+)` (IGNORECASE) anchored at the head of `s`. -/
def nameMatchAt (prev : Option Char) (s : List Char) : Option (List Char) :=
  if boundaryOk prev then
    match caselessDrop "my name is ".data s with
    | some r =>
        let w := r.takeWhile isWordChar
        if w.isEmpty then none else some w
    | none => none
  else none

/-- Leftmost search for the name pattern (model of `re.search`). -/
def searchName : Option Char → List Char → Option (List Char)
  | _, [] => none
  | prev, c :: rest =>
      match nameMatchAt prev (c :: rest) with
      | some w => some w
      | none => searchName (some c) rest

/-- Captured group of `re.search(r"\bmy name is (\w+)", message, re.IGNORECASE)`. -/
def name_match (message : String) : Option String :=
  (searchName none message.data).map String.mk

/-- Captured group of
`re.search(r"\bI(?:'m| am) (?:feeling|a bit)?\s*(\w+)", message, re.IGNORECASE)`. -/
def mood_match (message : String) : Option String :=
  (searchMood none message.data).map String.mk

/-- One role-tagged transcript entry. -/
structure Msg where
  role : String
  content : String
deriving DecidableEq

/-- The per-session conversation state (class `Conversation`); the Python
`memory` dict with its two recognised keys is modelled as two options. -/
structure Conversation where
  messages : List Msg
  active : Bool
  tone_set : Bool
  current_tone : String
  memory_name : Option String
  memory_mood : Option String
  title : String
deriving DecidableEq

/-- Global constant `FALLBACK_GIF`. -/
def FALLBACK_GIF : String :=
  "https://media.tenor.com/4zFMa2onE44AAAAC/funny-cat.gif"

/-- Global constant `FALLBACK_MESSAGE`. -/
def FALLBACK_MESSAGE : String :=
  "Couldn’t fetch a GIF due to network issues. Here’s a funny cat instead!"

/-- The dictionary `TONE_PROMPTS` (`.get` lookup). -/
def TONE_PROMPTS (k : String) : Option String :=
  if k = "serious" then some "You are a serious and professional assistant. 📘"
  else if k = "funny" then some "You are a funny and witty assistant 😂✨"
  else if k = "poetic" then some "You are a poetic AI who speaks in rhymes 🌸🎵"
  else if k = "dark_humor" then some "You are a dark-humored assistant 🖤💀🦃"
  else none

/-- `Conversation.set_tone`: the lookup and the `raise` precede every
mutation, so failure returns the error with no new state. -/
def set_tone (c : Conversation) (tone : String) : Except String Conversation :=
  let tone_key := pyStrip (pyLower tone)
  match TONE_PROMPTS tone_key with
  | none => .error "Invalid tone. Options: funny, serious, poetic, dark_humor"
  | some prompt =>
      if prompt = "" then
        .error "Invalid tone. Options: funny, serious, poetic, dark_humor"
      else
        .ok { c with messages := [⟨"system", prompt⟩],
                     current_tone := tone_key, tone_set := true }

/-- `Conversation.__init__`: fresh fields, then `set_tone`. -/
def Conversation.init (tone : String) (title : String) : Except String Conversation :=
  set_tone { messages := [], active := true, tone_set := false, current_tone := "",
             memory_name := none, memory_mood := none, title := title } tone

/-- `Conversation.remember`. -/
def remember (c : Conversation) (message : String) : Conversation :=
  let c1 :=
    match name_match message with
    | some w => { c with memory_name := some (pyCapitalize w) }
    | none => c
  match mood_match message with
  | some w =>
      let mood := pyLower w
      if mood = "a" || mood = "bit" || mood = "feeling" then c1
      else { c1 with memory_mood := some mood }
  | none => c1

/-- The sentences built by `Conversation.inject_memory_context` (dict keys
checked in the source order `name`, `mood`). -/
def memoryFacts (c : Conversation) : List String :=
  (match c.memory_name with
   | some n => ["The user's name is " ++ n ++ "."]
   | none => []) ++
  (match c.memory_mood with
   | some m => ["The user mentioned they were feeling " ++ m ++ " earlier."]
   | none => [])

/-- The joined context sentence. -/
def memoryContext (c : Conversation) : String :=
  String.intercalate " " (memoryFacts c)

/-- `Conversation.inject_memory_context`: `list.insert(1, x)` clamps like
`take 1 ++ [x] ++ drop 1`. -/
def inject_memory_context (c : Conversation) : Conversation :=
  if (memoryFacts c).isEmpty then c
  else { c with messages :=
          c.messages.take 1 ++ [⟨"system", memoryContext c⟩] ++ c.messages.drop 1 }

/-- Python truthiness of the `memory` dict. -/
def memoryNonempty (c : Conversation) : Bool :=
  c.memory_name.isSome || c.memory_mood.isSome

/-- The chat pipeline's guarded injection step (lines 266-267 of the source):
`if conversation.memory and not any("user's name" in m['content'] for m in
conversation.messages): conversation.inject_memory_context()`. -/
def injectStep (c : Conversation) : Conversation :=
  if memoryNonempty c && !(c.messages.any fun m => pyIn "user's name" m.content) then
    inject_memory_context c
  else c

/-- Outcome of one Tenor search request as the code observes it: a response
with an HTTP status and the parsed `results` list (each result abstracted to
its `media_formats.gif.url` string), or one of the exception classes the
handlers of `get_gif_url` distinguish. -/
inductive NetResp where
  | response (status : Nat) (results : List String)
  | connError
  | reqError
  | otherError
deriving DecidableEq

/-- One `session.get` + `raise_for_status` + `json()["results"]` round trip:
raises (as `Except.error`) on connection-level failures and on HTTP error
statuses, else yields the result list. -/
def doRequest (net : String → NetResp) (q : String) : Except String (List String) :=
  match net q with
  | .response status results =>
      if 400 ≤ status then .error "HTTPError" else .ok results
  | .connError => .error "ConnectionError"
  | .reqError => .error "RequestException"
  | .otherError => .error "Exception"

/-- Query normalisation at the top of `get_gif_url`: lowercase, strip, and
the one literal misspelling correction. -/
def normQuery (query : String) : String :=
  let q := pyStrip (pyLower query)
  if q = "peple" then "people" else q

/-- Model of `random.choice` given an oracle index `choose`. -/
def pyChoice (choose : Nat) (l : List String) : String :=
  l.getD (choose % l.length) ""

/-- The `try` block of `get_gif_url`: primary search, one fallback search
with the literal query `funny` on zero results, random choice among the
candidates, `FALLBACK_GIF` when both lists are empty. -/
def get_gif_url_try (net : String → NetResp) (choose : Nat) (query : String) :
    Except String String :=
  match doRequest net (normQuery query) with
  | .error e => .error e
  | .ok first =>
      match (if first.isEmpty then doRequest net "funny" else .ok first) with
      | .error e => .error e
      | .ok gifs =>
          if !gifs.isEmpty then .ok (pyChoice choose gifs)
          else .ok FALLBACK_GIF

/-- `get_gif_url`: every exception handler returns `FALLBACK_GIF`, so the
function is total toward its callers. -/
def get_gif_url (net : String → NetResp) (choose : Nat) (query : String) : String :=
  match get_gif_url_try net choose query with
  | .ok s => s
  | .error _ => FALLBACK_GIF

/-- External calls the chat endpoint performs, in order. -/
inductive Eff where
  | sentimentCall (text : String)
  | completionCall (msgs : List Msg)
  | gifFetch (query : String)
deriving DecidableEq

/-- What one call of the `chat` endpoint produces: the HTTP payload (or the
raised `HTTPException` detail as `Except.error`), the `gif` field, the
conversation state left behind (mutations before a raise persist), and the
log of external calls made. -/
structure ChatResult where
  resp : Except String String
  gif : Option String
  conv : Conversation
  effs : List Eff

/-- The three mood notes chosen from the lower-cased sentiment label. -/
def mood_note (sentiment : String) : String :=
  if sentiment = "positive" then
    "The user seems happy. Be playful and joyful in your response. 😄"
  else if sentiment = "negative" then
    "The user seems sad. Be empathetic and comforting in your response. 🥺"
  else
    "The user is neutral. Respond normally."

/-- The static onboarding guidance returned while `tone_set` is false. -/
def onboardingText : String :=
  "👋 Hi! Choose your tone: `/tone funny`, `/tone serious`, `/tone poetic`, `/tone dark_humor`\nRequest a GIF with: `/gif <topic>`"

/-- The `/gif` command branch of `chat` (topic already known non-empty). -/
def gifBranch (net : String → NetResp) (choose : Nat) (c : Conversation)
    (topic : String) : ChatResult :=
  let gif_url := get_gif_url net choose topic
  let response :=
    if gif_url = FALLBACK_GIF then FALLBACK_MESSAGE ++ "\n![GIF](" ++ gif_url ++ ")"
    else if gif_url ≠ "" then "Here's a GIF for you!\n![GIF](" ++ gif_url ++ ")"
    else "Sorry, couldn't find a suitable GIF for that topic. Try another topic!"
  { resp := .ok response
    gif := if gif_url = "" then none else some gif_url
    conv := { c with messages :=
                c.messages ++ [⟨"user", "/gif " ++ topic⟩, ⟨"assistant", response⟩] }
    effs := [.gifFetch topic] }

/-- The `/tone` command branch of `chat` (tone argument already known
non-empty). The celebratory fetch condition is the raw `tone == "funny"`
comparison of the source, before any case normalisation. -/
def toneBranch (net : String → NetResp) (choose : Nat) (c : Conversation)
    (tone : String) : ChatResult :=
  match set_tone c tone with
  | .error _ =>
      { resp := .ok "Invalid tone. Options: funny, serious, poetic, dark_humor."
        gif := none, conv := c, effs := [] }
  | .ok c1 =>
      let gif_url := if tone = "funny" then get_gif_url net choose "celebrate" else ""
      let response :=
        if gif_url = FALLBACK_GIF then
          "Tone changed to '" ++ tone ++ "'\n" ++ FALLBACK_MESSAGE ++
            "\n![GIF](" ++ gif_url ++ ")"
        else
          "Tone changed to '" ++ tone ++ "'" ++
            (if gif_url ≠ "" then "\n![GIF](" ++ gif_url ++ ")" else "")
      { resp := .ok response
        gif := if gif_url = "" then none else some gif_url
        conv := { c1 with messages := c1.messages ++ [⟨"assistant", response⟩] }
        effs := if tone = "funny" then [.gifFetch "celebrate"] else [] }

/-- The default chat pipeline (source lines 253-286): memory update,
sentiment call, guarded context injection, prompt assembly, completion call,
probabilistic GIF decoration, commit of the assistant reply. `lucky` is the
outcome of `random.random() < 0.3`. -/
def pipeline (sa : String → String) (completion : List Msg → Except String String)
    (net : String → NetResp) (choose : Nat) (lucky : Bool)
    (c : Conversation) (message user_msg role : String) : ChatResult :=
  let c1 := remember c user_msg
  let sentiment := pyLower (sa user_msg)
  let note := mood_note sentiment
  let c2 := injectStep c1
  let c3 := { c2 with messages := c2.messages ++ [⟨"system", note⟩, ⟨role, message⟩] }
  match completion c3.messages with
  | .error e =>
      { resp := .error ("Groq API failed: " ++ e), gif := none, conv := c3
        effs := [.sentimentCall user_msg, .completionCall c3.messages] }
  | .ok response =>
      if (sentiment = "positive" || c3.current_tone = "funny") && lucky then
        let gif_query := if sentiment = "positive" then "happy" else "funny"
        let gif_url := get_gif_url net choose gif_query
        let response2 :=
          if gif_url = FALLBACK_GIF then
            response ++ "\n" ++ FALLBACK_MESSAGE ++ "\n![GIF](" ++ gif_url ++ ")"
          else if gif_url ≠ "" then response ++ "\n![GIF](" ++ gif_url ++ ")"
          else response
        { resp := .ok response2
          gif := if gif_url = "" then none else some gif_url
          conv := { c3 with messages := c3.messages ++ [⟨"assistant", response2⟩] }
          effs := [.sentimentCall user_msg, .completionCall c3.messages,
                   .gifFetch gif_query] }
      else
        { resp := .ok response, gif := none
          conv := { c3 with messages := c3.messages ++ [⟨"assistant", response⟩] }
          effs := [.sentimentCall user_msg, .completionCall c3.messages] }

/-- The `chat` endpoint: activity gate, `/gif` and `/tone` command dispatch,
onboarding gate, then the default pipeline. -/
def chat (sa : String → String) (completion : List Msg → Except String String)
    (net : String → NetResp) (choose : Nat) (lucky : Bool)
    (c : Conversation) (message role : String) : ChatResult :=
  let user_msg := pyStrip message
  if !c.active then
    { resp := .error "Chat session ended.", gif := none, conv := c, effs := [] }
  else if pyStartsWith "/gif" (pyLower user_msg) then
    let topic := pyStrip (pyDropStr 5 user_msg)
    if topic = "" then
      { resp := .ok "Please specify a topic after /gif", gif := none, conv := c, effs := [] }
    else gifBranch net choose c topic
  else if pyStartsWith "/tone" (pyLower user_msg) then
    let tone := pyStrip (pyDropStr 5 user_msg)
    if tone = "" then
      { resp := .ok "Please specify a tone after /tone", gif := none, conv := c, effs := [] }
    else toneBranch net choose c tone
  else if !c.tone_set then
    { resp := .ok onboardingText, gif := none, conv := c, effs := [] }
  else
    pipeline sa completion net choose lucky c message user_msg role

/-- The process-wide conversation store, keyed in insertion order. -/
abbrev Registry := List (String × Conversation)

/-- The `new_chat` endpoint: duplicate-id check, then construction (whose
tone validation raises before the store assignment), then insertion. -/
def new_chat (reg : Registry) (cid tone title : String) :
    Except String String × Registry :=
  if (List.lookup cid reg).isSome then
    (.error "Chat ID already exists.", reg)
  else
    match Conversation.init tone title with
    | .error e => (.error e, reg)
    | .ok conv => (.ok ("Chat '" ++ title ++ "' created."), reg ++ [(cid, conv)])

/-- A conversation as `get_or_create_conversation` first builds it: default
tone `funny`, default title. -/
def conv0 : Conversation :=
  { messages := [⟨"system", "You are a funny and witty assistant 😂✨"⟩]
    active := true, tone_set := true, current_tone := "funny"
    memory_name := none, memory_mood := none, title := "New Chat" }

/-- A conversation whose memory holds only a mood fact. -/
def convMood : Conversation :=
  { conv0 with memory_mood := some "sad" }

/-- A conversation whose memory holds a name fact. -/
def convName : Conversation :=
  { conv0 with memory_name := some "Alice" }

/-- A conversation whose tone has not been set (the state the onboarding
gate of `chat` tests for). -/
def convNoTone : Conversation :=
  { conv0 with tone_set := false }

/-- A network oracle on which every search request fails at the connection
level. -/
def netDown : String → NetResp := fun _ => NetResp.connError

/-- A network oracle with zero primary results for every query but one
candidate for the fallback query `funny`. -/
def netOnlyFunny : String → NetResp := fun q =>
  if q = "funny" then NetResp.response 200 ["https://media.tenor.com/abc/fallback-hit.gif"]
  else NetResp.response 200 []

/-- A sentiment oracle that always answers `NEUTRAL`. -/
def saNeutral : String → String := fun _ => "NEUTRAL"

/-- A completion oracle that always succeeds with `hi`. -/
def compOk : List Msg → Except String String := fun _ => Except.ok "hi"

end Chatbot

namespace Chatbot

theorem isPre_append (nd h t : List Char) (hp : isPre nd h = true) :
    isPre nd (h ++ t) = true := by
  induction nd generalizing h with
  | nil => simp [isPre]
  | cons a as ih =>
    cases h with
    | nil => simp [isPre] at hp
    | cons b bs =>
      simp only [isPre, Bool.and_eq_true, beq_iff_eq] at hp
      simp only [List.cons_append, isPre, Bool.and_eq_true, beq_iff_eq]
      exact ⟨hp.1, ih bs hp.2⟩

theorem containsSub_append (nd h t : List Char) (hc : containsSub nd h = true) :
    containsSub nd (h ++ t) = true := by
  induction h with
  | nil =>
    cases t with
    | nil => simpa using hc
    | cons c cs =>
      simp only [containsSub] at hc
      have : isPre nd [] = true := hc
      have hpre : isPre nd (c :: cs) = true := by
        have : nd = [] := by cases nd with
          | nil => rfl
          | cons a as => simp [isPre] at this
        simp [this, isPre]
      simp [containsSub, hpre]
  | cons c cs ih =>
    simp only [containsSub, Bool.or_eq_true] at hc
    rcases hc with hpre | hrest
    · have : isPre nd ((c :: cs) ++ t) = true := isPre_append nd (c :: cs) t hpre
      simp only [List.cons_append] at this ⊢
      simp [containsSub, this]
    · have := ih hrest
      simp only [List.cons_append, containsSub, Bool.or_eq_true]
      exact Or.inr this

theorem pyIn_append (needle a b : String) (h : pyIn needle a = true) :
    pyIn needle (a ++ b) = true := by
  unfold pyIn at h ⊢
  rw [String.data_append]
  exact containsSub_append _ _ _ h

/-- The name fact always carries the detection fragment the guard of the
chat pipeline scans for. -/
theorem marker_in_memoryContext (c : Conversation) (n : String)
    (hn : c.memory_name = some n) :
    pyIn "user's name" (memoryContext c) = true := by
  have hbase : pyIn "user's name" "The user's name is " = true := by decide
  cases hm : c.memory_mood with
  | none =>
    have hctx : memoryContext c = "The user's name is " ++ (n ++ ".") := by
      simp [memoryContext, memoryFacts, hn, hm, String.intercalate,
        String.intercalate.go, String.append_assoc]
    rw [hctx]
    exact pyIn_append _ _ _ hbase
  | some m =>
    have hctx : memoryContext c =
        "The user's name is " ++
          (n ++ (". " ++ ("The user mentioned they were feeling " ++
            (m ++ " earlier.")))) := by
      simp [memoryContext, memoryFacts, hn, hm, String.intercalate,
        String.intercalate.go, String.append_assoc]
    rw [hctx]
    exact pyIn_append _ _ _ hbase

theorem TONE_PROMPTS_ne_empty (k p : String) (h : TONE_PROMPTS k = some p) :
    p ≠ "" := by
  intro he
  subst he
  unfold TONE_PROMPTS at h
  repeat' split at h
  all_goals first
    | exact Option.noConfusion h
    | (injection h with h; exact absurd h (by decide))

theorem pyChoice_mem (choose : Nat) (l : List String) (h : l ≠ []) :
    pyChoice choose l ∈ l := by
  unfold pyChoice
  have hlen : choose % l.length < l.length :=
    Nat.mod_lt _ (List.length_pos.mpr h)
  rw [List.getD_eq_getElem l "" hlen]
  exact List.getElem_mem hlen

/-- C2: a tone switch is atomic: a valid tone (case-insensitive,
whitespace-trimmed lookup) replaces the transcript with exactly the one
system entry holding that tone's registered prompt — memory, title and the
active flag untouched — and an invalid tone fails with the tone error,
mutating nothing. -/
theorem C2_set_tone_atomic (c : Conversation) (tone : String) :
    (∀ p, TONE_PROMPTS (pyStrip (pyLower tone)) = some p →
        set_tone c tone =
          .ok { c with
                messages := [⟨"system", p⟩],
                current_tone := pyStrip (pyLower tone),
                tone_set := true }) ∧
    (TONE_PROMPTS (pyStrip (pyLower tone)) = none →
        set_tone c tone = .error "Invalid tone. Options: funny, serious, poetic, dark_humor") := by
  constructor
  · intro p hp
    have hne := TONE_PROMPTS_ne_empty _ _ hp
    simp [set_tone, hp, hne]
  · intro h
    simp [set_tone, h]

theorem C2_witness :
    set_tone conv0 "  FUNNY  " =
      .ok { conv0 with
            messages := [⟨"system", "You are a funny and witty assistant 😂✨"⟩],
            current_tone := "funny", tone_set := true } := by
  have h := (C2_set_tone_atomic conv0 "  FUNNY  ").1
    "You are a funny and witty assistant 😂✨" (by decide)
  rw [show pyStrip (pyLower "  FUNNY  ") = "funny" by decide] at h
  exact h

/-- C8: the Memory Extractor's three reference examples: a name disclosure
stores the capitalised name, `feeling sad` stores the mood `sad`, and
`I am a student` leaves the mood unset (the captured token is the filtered
stop-word `a`). -/
theorem C8_memory_examples :
    (remember conv0 "my name is Alice").memory_name = some "Alice" ∧
    (remember conv0 "I'm feeling sad").memory_mood = some "sad" ∧
    (remember conv0 "I am a student").memory_mood = none := by decide

theorem C9_counterexample :
    (remember conv0 "I am a teacher").memory_mood ≠ some "teacher" := by decide

/-- C9 (amended): on `I am a teacher` the regex captures the token `a` (the
optional filler alternative `a bit` fails against `a teacher`, so the
single-word capture starts at `a`), which the stop-word filter rejects, so
no mood is stored; a downstream noun is captured only when the unconsumed
filler is absent, as in `I am teacher`. -/
theorem C9_stopword_boundary :
    mood_match "I am a teacher" = some "a" ∧
    (remember conv0 "I am a teacher").memory_mood = none ∧
    (remember conv0 "I am teacher").memory_mood = some "teacher" := by decide

/-- C10: explicit conversation creation with an unrecognised tone raises the
tone-validation error before the registry insertion: the store comes back
unchanged and no entry appears under the requested identifier. -/
theorem C10_create_atomic (reg : Registry) (cid tone title : String)
    (hid : List.lookup cid reg = none)
    (htone : TONE_PROMPTS (pyStrip (pyLower tone)) = none) :
    new_chat reg cid tone title =
      (.error "Invalid tone. Options: funny, serious, poetic, dark_humor", reg) ∧
    List.lookup cid (new_chat reg cid tone title).2 = none := by
  have hmain : new_chat reg cid tone title =
      (.error "Invalid tone. Options: funny, serious, poetic, dark_humor", reg) := by
    simp [new_chat, hid, Conversation.init, set_tone, htone]
  exact ⟨hmain, by rw [hmain]; exact hid⟩

theorem C1_counterexample :
    ((injectStep (injectStep convMood)).messages.filter
        (fun m => m.content = memoryContext convMood)).length = 2 ∧
    injectStep (injectStep convMood) ≠ injectStep convMood := by decide

/-- C1 (amended): the guarded injection step of the chat pipeline is
idempotent exactly when the memory carries the name fact — the detection
fragment scanned for is `user's name`, which a name-bearing context message
always contains — and the first run inserts the single context message at
index 1. With mood-only memory the context message lacks the fragment and
the step re-injects on every run (`inject_memory_context` itself has no
guard at all). -/
theorem injectStep_of_marker_present (c : Conversation)
    (h : (c.messages.any fun m => pyIn "user's name" m.content) = true) :
    injectStep c = c := by
  unfold injectStep
  rw [h]
  simp

theorem C1_injection_guard_with_name (c : Conversation) (n : String)
    (hn : c.memory_name = some n) :
    injectStep (injectStep c) = injectStep c ∧
    ((c.messages.any fun m => pyIn "user's name" m.content) = false →
      (injectStep c).messages =
        c.messages.take 1 ++ [⟨"system", memoryContext c⟩] ++ c.messages.drop 1) := by
  have hmem : memoryNonempty c = true := by simp [memoryNonempty, hn]
  have hfacts : (memoryFacts c).isEmpty = false := by
    cases hm : c.memory_mood <;> simp [memoryFacts, hn, hm]
  by_cases hany : (c.messages.any fun m => pyIn "user's name" m.content) = true
  · have hid : injectStep c = c := by simp [injectStep, hany]
    refine ⟨by rw [hid, hid], ?_⟩
    intro hfalse
    rw [hany] at hfalse
    exact absurd hfalse (by simp)
  · have hany' : (c.messages.any fun m => pyIn "user's name" m.content) = false :=
      Bool.not_eq_true _ ▸ eq_false_of_ne_true hany
    have hstep : injectStep c =
        { c with messages :=
            c.messages.take 1 ++ [⟨"system", memoryContext c⟩] ++ c.messages.drop 1 } := by
      simp [injectStep, hmem, hany', inject_memory_context, hfacts]
    have hctx : pyIn "user's name" (memoryContext c) = true :=
      marker_in_memoryContext c n hn
    have hany2 : (((injectStep c).messages.any
        fun m => pyIn "user's name" m.content)) = true := by
      rw [hstep]
      simp [List.any_append, hctx]
    exact ⟨injectStep_of_marker_present _ hany2, fun _ => by rw [hstep]⟩

theorem C1_witness :
    injectStep (injectStep convName) = injectStep convName ∧
    (injectStep convName).messages =
      convName.messages.take 1 ++ [⟨"system", memoryContext convName⟩] ++
        convName.messages.drop 1 := by
  have h := C1_injection_guard_with_name convName "Alice" rfl
  exact ⟨h.1, h.2 (by decide)⟩

theorem C10_witness :
    new_chat [] "room-1" "bogus" "My Chat" =
      (.error "Invalid tone. Options: funny, serious, poetic, dark_humor", []) ∧
    List.lookup "room-1" (new_chat [] "room-1" "bogus" "My Chat").2 = none :=
  C10_create_atomic [] "room-1" "bogus" "My Chat" rfl (by decide)

/-- C6: the Media Fetcher is total toward its callers: every result is
either the fixed fallback asset or a URL drawn from a successful search
response (primary or fallback query) — no exception escapes, each handler
resolving to `FALLBACK_GIF` — and on an all-error or all-empty backend it
returns exactly `FALLBACK_GIF`. -/
theorem C6_fetch_total (net : String → NetResp) (choose : Nat) (query : String) :
    (get_gif_url net choose query = FALLBACK_GIF ∨
      ∃ gifs, (doRequest net (normQuery query) = .ok gifs ∨
               doRequest net "funny" = .ok gifs) ∧
        get_gif_url net choose query ∈ gifs) ∧
    ((∀ q gifs, doRequest net q = .ok gifs → gifs = []) →
      get_gif_url net choose query = FALLBACK_GIF) := by
  constructor
  · cases h1 : doRequest net (normQuery query) with
    | error e => left; simp [get_gif_url, get_gif_url_try, h1]
    | ok first =>
      by_cases hf : first.isEmpty
      · cases h2 : doRequest net "funny" with
        | error e => left; simp [get_gif_url, get_gif_url_try, h1, hf, h2]
        | ok gifs =>
          by_cases hg : gifs.isEmpty
          · left; simp [get_gif_url, get_gif_url_try, h1, hf, h2, hg]
          · right
            refine ⟨gifs, Or.inr rfl, ?_⟩
            have hr : get_gif_url net choose query = pyChoice choose gifs := by
              simp [get_gif_url, get_gif_url_try, h1, hf, h2, hg]
            rw [hr]
            exact pyChoice_mem choose gifs (by simpa [List.isEmpty_iff] using hg)
      · right
        refine ⟨first, Or.inl rfl, ?_⟩
        have hr : get_gif_url net choose query = pyChoice choose first := by
          simp [get_gif_url, get_gif_url_try, h1, hf]
        rw [hr]
        exact pyChoice_mem choose first (by simpa [List.isEmpty_iff] using hf)
  · intro hall
    cases h1 : doRequest net (normQuery query) with
    | error e => simp [get_gif_url, get_gif_url_try, h1]
    | ok first =>
      have hfirst : first = [] := hall _ _ h1
      subst hfirst
      cases h2 : doRequest net "funny" with
      | error e => simp [get_gif_url, get_gif_url_try, h1, h2]
      | ok gifs =>
        have hg : gifs = [] := hall _ _ h2
        subst hg
        simp [get_gif_url, get_gif_url_try, h1, h2]

theorem C6_witness :
    get_gif_url netDown 0 "cats" = FALLBACK_GIF :=
  (C6_fetch_total netDown 0 "cats").2
    (by intro q gifs h; simp [doRequest, netDown] at h)

/-- C7: when the primary search succeeds with zero results and the single
fallback query `funny` succeeds with a non-empty candidate list, the fetcher
returns one of the fallback candidates, and in particular not the fixed
fallback asset as long as no candidate equals it. -/
theorem C7_fallback_candidates (net : String → NetResp) (choose : Nat)
    (query : String) (gifs : List String) (st1 st2 : Nat)
    (h1 : net (normQuery query) = .response st1 [])
    (hst1 : st1 < 400)
    (h2 : net "funny" = .response st2 gifs)
    (hst2 : st2 < 400)
    (hne : gifs ≠ []) :
    get_gif_url net choose query ∈ gifs ∧
    (FALLBACK_GIF ∉ gifs → get_gif_url net choose query ≠ FALLBACK_GIF) := by
  have hd1 : doRequest net (normQuery query) = .ok [] := by
    simp [doRequest, h1, Nat.not_le.mpr hst1]
  have hd2 : doRequest net "funny" = .ok gifs := by
    simp [doRequest, h2, Nat.not_le.mpr hst2]
  have hg : gifs.isEmpty = false := by
    cases gifs with
    | nil => exact absurd rfl hne
    | cons a l => rfl
  have hr : get_gif_url net choose query = pyChoice choose gifs := by
    simp [get_gif_url, get_gif_url_try, hd1, hd2, hg]
  have hmem : get_gif_url net choose query ∈ gifs := by
    rw [hr]; exact pyChoice_mem choose gifs hne
  exact ⟨hmem, fun hnot heq => hnot (heq ▸ hmem)⟩

theorem C7_witness :
    get_gif_url netOnlyFunny 0 "cats" ∈
      ["https://media.tenor.com/abc/fallback-hit.gif"] ∧
    get_gif_url netOnlyFunny 0 "cats" ≠ FALLBACK_GIF := by
  have h := C7_fallback_candidates netOnlyFunny 0 "cats"
    ["https://media.tenor.com/abc/fallback-hit.gif"] 200 200
    (by decide) (by decide) (by decide) (by decide) (by decide)
  exact ⟨h.1, h.2 (by decide)⟩

/-- C3: with the tone not yet set, a non-command message on an active,
freshly created conversation returns the fixed onboarding guidance and
mutates nothing: no external call is made and the transcript stays the
single default-tone system prompt. -/
theorem C3_onboarding_gate (sa : String → String)
    (completion : List Msg → Except String String)
    (net : String → NetResp) (choose : Nat) (lucky : Bool)
    (c : Conversation) (message role : String)
    (hact : c.active = true)
    (hset : c.tone_set = false)
    (hgif : pyStartsWith "/gif" (pyLower (pyStrip message)) = false)
    (htone : pyStartsWith "/tone" (pyLower (pyStrip message)) = false)
    (hmsgs : c.messages = [⟨"system", "You are a funny and witty assistant 😂✨"⟩]) :
    chat sa completion net choose lucky c message role =
      { resp := .ok onboardingText, gif := none, conv := c, effs := [] } ∧
    (chat sa completion net choose lucky c message role).conv.messages =
      [⟨"system", "You are a funny and witty assistant 😂✨"⟩] := by
  have hmain : chat sa completion net choose lucky c message role =
      { resp := .ok onboardingText, gif := none, conv := c, effs := [] } := by
    simp [chat, hact, hset, hgif, htone]
  exact ⟨hmain, by rw [hmain]; exact hmsgs⟩

theorem C3_witness :
    chat saNeutral compOk netDown 0 false convNoTone "hello" "user" =
      { resp := .ok onboardingText, gif := none, conv := convNoTone, effs := [] } :=
  (C3_onboarding_gate saNeutral compOk netDown 0 false convNoTone "hello" "user"
    rfl rfl (by decide) (by decide) rfl).1

theorem C4_counterexample :
    Msg.mk "system" "The user is neutral. Respond normally." ∈
      (chat saNeutral compOk netDown 0 false conv0 "hello" "user").conv.messages := by
  decide

/-- C4 (amended): the mood-note system instruction of a turn is appended to
the conversation's stored transcript and remains there after the turn
completes (whether the completion call succeeds or fails, with or without
GIF decoration); one such note accumulates per turn. -/
theorem C4_mood_note_persists (sa : String → String)
    (completion : List Msg → Except String String)
    (net : String → NetResp) (choose : Nat) (lucky : Bool)
    (c : Conversation) (message role : String)
    (hact : c.active = true) (hset : c.tone_set = true)
    (hgif : pyStartsWith "/gif" (pyLower (pyStrip message)) = false)
    (htone : pyStartsWith "/tone" (pyLower (pyStrip message)) = false) :
    Msg.mk "system" (mood_note (pyLower (sa (pyStrip message)))) ∈
      (chat sa completion net choose lucky c message role).conv.messages := by
  have hchat : chat sa completion net choose lucky c message role =
      pipeline sa completion net choose lucky c message (pyStrip message) role := by
    simp [chat, hact, hset, hgif, htone]
  rw [hchat]
  unfold pipeline
  dsimp only
  split
  · simp
  · split
    · simp
    · simp

theorem C4_witness :
    Msg.mk "system" "The user is neutral. Respond normally." ∈
      (chat saNeutral compOk netDown 0 true conv0 "hola" "user").conv.messages := by
  have h := C4_mood_note_persists saNeutral compOk netDown 0 true conv0 "hola" "user"
    rfl rfl (by decide) (by decide)
  exact h

theorem C5_counterexample :
    (chat saNeutral compOk netDown 0 false conv0 "/tone FUNNY" "user").conv.current_tone
        = "funny" ∧
    (chat saNeutral compOk netDown 0 false conv0 "/tone FUNNY" "user").effs = [] ∧
    (chat saNeutral compOk netDown 0 false conv0 "/tone FUNNY" "user").gif = none := by
  refine ⟨by decide, by decide, by decide⟩

/-- C5 (amended): on a successful `/tone` command one assistant entry
describing the change is appended to the freshly reset transcript and the
asset reference is returned when one was fetched; the celebratory fetch is
triggered iff the raw trimmed argument is exactly the lowercase string
`funny` — a differently cased argument still sets the tone `funny` (the
lookup is case-insensitive) but triggers no fetch. -/
theorem C5_tone_command (sa : String → String)
    (completion : List Msg → Except String String)
    (net : String → NetResp) (choose : Nat) (lucky : Bool)
    (c c1 : Conversation) (message role : String)
    (hact : c.active = true)
    (hgif : pyStartsWith "/gif" (pyLower (pyStrip message)) = false)
    (htone : pyStartsWith "/tone" (pyLower (pyStrip message)) = true)
    (harg : pyStrip (pyDropStr 5 (pyStrip message)) ≠ "")
    (hok : set_tone c (pyStrip (pyDropStr 5 (pyStrip message))) = .ok c1) :
    (Eff.gifFetch "celebrate" ∈ (chat sa completion net choose lucky c message role).effs
        ↔ pyStrip (pyDropStr 5 (pyStrip message)) = "funny") ∧
    (∃ response, (chat sa completion net choose lucky c message role).resp = .ok response ∧
      (chat sa completion net choose lucky c message role).conv =
        { c1 with messages := c1.messages ++ [⟨"assistant", response⟩] }) ∧
    ((chat sa completion net choose lucky c message role).gif =
      if pyStrip (pyDropStr 5 (pyStrip message)) = "funny" then
        (if get_gif_url net choose "celebrate" = "" then none
         else some (get_gif_url net choose "celebrate"))
      else none) := by
  have hchat : chat sa completion net choose lucky c message role =
      toneBranch net choose c (pyStrip (pyDropStr 5 (pyStrip message))) := by
    simp [chat, hact, hgif, htone, harg]
  rw [hchat]
  unfold toneBranch
  rw [hok]
  by_cases ht : pyStrip (pyDropStr 5 (pyStrip message)) = "funny"
  · simp only [ht, if_pos rfl]
    refine ⟨by simp, ⟨_, rfl, rfl⟩, rfl⟩
  · simp only [if_neg ht]
    have hne : ¬(("" : String) = FALLBACK_GIF) := by decide
    simp only [if_neg hne, ne_eq, not_true_eq_false, if_neg (by simp : ¬(("" : String) ≠ ""))]
    refine ⟨by simp [ht], ⟨_, rfl, rfl⟩, by simp [ht]⟩

theorem C5_witness :
    Eff.gifFetch "celebrate" ∈
      (chat saNeutral compOk netDown 0 false conv0 "/tone funny" "user").effs :=
  (C5_tone_command saNeutral compOk netDown 0 false conv0 conv0 "/tone funny" "user"
    rfl (by decide) (by decide) (by decide) rfl).1.mpr (by decide)

end Chatbot

